import Mathlib

/-!
Verification of the PlantScaner capture-session manager and identification
orchestrator, shallowly embedded from `src/public/script.js` (the current
front-end revision) and `src/server.js` (the `/identify` relay).

Modelling conventions:
* The IndexedDB store (`plantScannerDB`, object stores `settings` and
  `session`) is modelled as an association list keyed by
  (namespace, key); `put`/`get`/`delete` mirror the object-store calls.
  KVS operations are modelled as succeeding (the source logs and swallows
  store failures; that degraded mode is out of the claims' scope).
* Captured images are data-URI strings.
* The mutable module state of `script.js` (`imageCounter`,
  `capturedImages`, `currentDraft`, `isProcessingFile`) together with the
  store content forms `ClientState`; each DOM event handler becomes a
  function from state (plus the event's data) to state.
* Network responses and the platform JSON parser are inputs: a provider
  response is a value of the decoded shape (or `none` for a transport /
  JSON failure), and `JSON.parse` on the Gemini text is an abstract
  `String → Option UnifiedResult` parameter.
* JS numbers that the code merely copies (Pl@ntNet scores, likelihoods)
  are modelled as `Rat`; the code performs no arithmetic on them.
-/

namespace PlantScanner

/-- A stored session record: the `{ imageCounter, capturedImages }` object
that `saveSession` writes under key `current_session`. -/
structure StoredSession where
  imageCounter : Nat
  capturedImages : List String
deriving DecidableEq, Repr

/-- Values held by the store: session records (namespace `session`) and
the Gemini key string (namespace `settings`). -/
inductive KvsValue where
  | sessionV (data : StoredSession)
  | strV (s : String)
deriving DecidableEq, Repr

/-- The IndexedDB content: entries (namespace, key, value). -/
abbrev Kvs := List (String × String × KvsValue)

/-- `SESSION_ID` from script.js. -/
def SESSION_ID : String := "current_session"

/-- `objectStore(ns).get(key)`: the most recent value stored under
(ns, key), if any. -/
def kvsGet (db : Kvs) (ns key : String) : Option KvsValue :=
  (db.find? (fun e => e.1 == ns && e.2.1 == key)).map (fun e => e.2.2)

/-- `objectStore(ns).put(v, key)`: replaces any entry under (ns, key). -/
def kvsPut (db : Kvs) (ns key : String) (v : KvsValue) : Kvs :=
  (ns, key, v) :: db.filter (fun e => !(e.1 == ns && e.2.1 == key))

/-- `objectStore(ns).delete(key)`. -/
def kvsDelete (db : Kvs) (ns key : String) : Kvs :=
  db.filter (fun e => !(e.1 == ns && e.2.1 == key))

/-- The in-memory front-end state of script.js plus the store content. -/
structure ClientState where
  imageCounter : Nat
  capturedImages : List String
  currentDraft : Option String
  isProcessingFile : Bool
  db : Kvs
deriving DecidableEq, Repr

/-- `saveSession()`: put `{ imageCounter, capturedImages }` under
`session/current_session`. -/
def saveSession (s : ClientState) : ClientState :=
  { s with db :=
      kvsPut s.db "session" SESSION_ID (.sessionV ⟨s.imageCounter, s.capturedImages⟩) }

/-- `clearSession()`: delete `session/current_session`. -/
def clearSession (s : ClientState) : ClientState :=
  { s with db := kvsDelete s.db "session" SESSION_ID }

/-- `getKey()`: read `settings/geminiKey`. -/
def getKey (db : Kvs) : Option String :=
  match kvsGet db "settings" "geminiKey" with
  | some (.strV k) => some k
  | _ => none

/-- JS truthiness of the key read back by `getKey` (`if (apiKey)` in
`processImages`): absent or empty string is falsy. -/
def truthyStr (o : Option String) : Option String :=
  match o with
  | some s => if s.isEmpty then none else some s
  | none => none

/-- Outcome of `compressImage(file)` on a picked file. The source attaches
no `onerror` handler to the `FileReader` or the `Image`, so on an
undecodable image the promise never settles: modelled by `hang`. -/
inductive DecodeOutcome where
  | ok (uri : String)
  | hang
deriving DecidableEq, Repr

/-- A `change` event on the hidden file input: either no file was picked
or a file whose compression has the given outcome. -/
inductive CaptureEvent where
  | noFile
  | file (outcome : DecodeOutcome)
deriving DecidableEq, Repr

/-- The file-input `change` handler. Guard: returns immediately while
`isProcessingFile`. On a file it sets the flag, awaits `compressImage`,
stores the draft and shows the review UI, resetting the flag in
`finally`; if the compression promise never settles the `await` never
resumes, so the flag is never reset and no further statement runs. -/
def fileChange (s : ClientState) (ev : CaptureEvent) : ClientState :=
  if s.isProcessingFile then s
  else
    match ev with
    | .noFile => s
    | .file .hang => { s with isProcessingFile := true }
    | .file (.ok uri) => { s with currentDraft := some uri }

/-- What a scan-button click did. -/
inductive ScanAction where
  | startNew
  | blocked
  | openPicker
deriving DecidableEq, Repr

/-- The scan-button `click` handler. With `imageCounter >= 3` it acts as
"start new" (clear session, reset counters); otherwise it is rejected
while `isProcessingFile`, else it opens the image picker
(`fileInput.click()`). -/
def scanClick (s : ClientState) : ClientState × ScanAction :=
  if 3 ≤ s.imageCounter then
    ({ s with imageCounter := 0, capturedImages := [],
              db := kvsDelete s.db "session" SESSION_ID }, .startNew)
  else if s.isProcessingFile then (s, .blocked)
  else (s, .openPicker)

/-- The retake-button `click` handler: discard the draft, show the step. -/
def retakeClick (s : ClientState) : ClientState :=
  { s with currentDraft := none }

/-- The confirm-button `click` handler. Returns the state after the
handler body up to (not including) the asynchronous `processImages` work,
and whether `processImages` was invoked. -/
def confirmClick (s : ClientState) : ClientState × Bool :=
  match s.currentDraft with
  | none => (s, false)
  | some d =>
      let s1 : ClientState :=
        { s with capturedImages := s.capturedImages ++ [d],
                 imageCounter := s.imageCounter + 1 }
      let s2 := saveSession s1
      let s3 : ClientState := { s2 with currentDraft := none }
      if 3 ≤ s3.imageCounter then (s3, true) else (s3, false)

/-- One `captureRaw → confirm` cycle: a successful file pick followed by
the confirm click. -/
def cycle (s : ClientState) (img : String) : ClientState × Bool :=
  confirmClick (fileChange s (.file (.ok img)))

/-! ## Unified identification result

JS objects are open maps; the result record models every key the program
ever writes or reads, with `none` standing for an absent key. -/

/-- The `best_match` object (keys written by `buildPlantnetResult` or
expected from Gemini, and read by `displayResult`). -/
structure BestMatch where
  scientific_name : String
  common_name : String
  family : Option String
  confidence : Rat
deriving DecidableEq, Repr

/-- One entry of a health-assessment issue list. -/
structure Issue where
  name : String
  likelihood : Rat
  safe_actions : Option String
deriving DecidableEq, Repr

/-- The `health_assessment` object. `buildPlantnetResult` writes key
`issues`; the Gemini prompt requests key `possible_issues`. -/
structure HealthAssessment where
  status : Option String
  possible_issues : Option (List Issue)
  issues : Option (List Issue)
deriving DecidableEq, Repr

/-- The `care_guide` object requested from Gemini. -/
structure CareGuide where
  watering : Option String
  light : Option String
  soil : Option String
  fertilizing : Option String
deriving DecidableEq, Repr

/-- The unified identification result. `alternatives` is a key no code
path ever writes; it is included so statements about its absence are
expressible (absent key = `none`). -/
structure UnifiedResult where
  best_match : Option BestMatch
  health_assessment : Option HealthAssessment
  care_guide : Option CareGuide
  fun_facts : Option (List String)
  alternatives : Option (List BestMatch)
deriving DecidableEq, Repr

/-- The empty object: no keys present. -/
def emptyUnified : UnifiedResult := ⟨none, none, none, none, none⟩

/-- `Object.keys(result).length === 0`: every key absent. -/
def isEmptyObj (r : UnifiedResult) : Bool :=
  r.best_match.isNone && r.health_assessment.isNone && r.care_guide.isNone
    && r.fun_facts.isNone && r.alternatives.isNone

/-! ## Pl@ntNet response shape (as read by `buildPlantnetResult`) -/

/-- `species` subobject of a Pl@ntNet candidate. -/
structure PnSpecies where
  scientificNameWithoutAuthor : Option String
  commonNames : List String
deriving DecidableEq, Repr

/-- A ranked species candidate (`data.identify.results[i]`). -/
structure PnCandidate where
  species : Option PnSpecies
  score : Rat
deriving DecidableEq, Repr

/-- A disease candidate (`data.diseases.results[i]`). -/
structure PnDisease where
  label : Option String
  name : Option String
  score : Rat
deriving DecidableEq, Repr

/-- The decoded `/identify` relay response body, with the optional
chains `data.identify?.results` and `data.diseases?.results` absorbed
into (possibly empty) lists. -/
structure PlantnetData where
  identifyResults : List PnCandidate
  diseasesResults : List PnDisease
deriving DecidableEq, Repr

/-- JS `a || b` on a possibly-absent string: absent or empty falls
through to `b`. -/
def jsOrStr (a : Option String) (b : String) : String :=
  match a with
  | some s => if s.isEmpty then b else s
  | none => b

/-- `buildPlantnetResult(data)` from script.js: top candidate to
`best_match`, disease candidates to `health_assessment.issues`. -/
def buildPlantnetResult (data : PlantnetData) : UnifiedResult :=
  let withBest : UnifiedResult :=
    match data.identifyResults.head? with
    | some top =>
        let bm : BestMatch :=
          { scientific_name := jsOrStr (top.species.bind PnSpecies.scientificNameWithoutAuthor) ""
            common_name := jsOrStr ((top.species.map PnSpecies.commonNames).getD []).head? ""
            family := none
            confidence := top.score }
        { emptyUnified with best_match := some bm }
    | none => emptyUnified
  if 0 < data.diseasesResults.length then
    let ha : HealthAssessment :=
      { status := none
        possible_issues := none
        issues := some (data.diseasesResults.map (fun r =>
          { name := jsOrStr r.label (jsOrStr r.name "")
            likelihood := r.score
            safe_actions := none })) }
    { withBest with health_assessment := some ha }
  else withBest

/-! ## Gemini call -/

/-- The characters of the tagged opening fence with its newline. -/
def fenceJsonNl : List Char := ['`', '`', '`', 'j', 's', 'o', 'n', '\n']

/-- The characters of the tagged opening fence without a newline. -/
def fenceJson : List Char := ['`', '`', '`', 'j', 's', 'o', 'n']

/-- The characters of a closing fence preceded by a newline. -/
def nlFence : List Char := ['\n', '`', '`', '`']

/-- The characters of a bare fence. -/
def fence : List Char := ['`', '`', '`']

/-- `text.trim()` on the character list (ASCII whitespace; the inputs at
issue are ASCII). -/
def trimL (l : List Char) : List Char :=
  ((l.dropWhile Char.isWhitespace).reverse.dropWhile Char.isWhitespace).reverse

/-- The fence-stripping step of `callGemini` on the character list. The
leading anchored replacement matches only the exact lowercase tagged
fence (with or without its newline); the trailing anchored replacement
greedily prefers the newline-preceded closing fence. Each replacement
fires at most once because the patterns are anchored. -/
def stripFencesL (t0 : List Char) : List Char :=
  let t := trimL t0
  let t1 :=
    if fenceJsonNl.isPrefixOf t then t.drop 8
    else if fenceJson.isPrefixOf t then t.drop 7
    else t
  if nlFence.isSuffixOf t1 then t1.take (t1.length - 4)
  else if fence.isSuffixOf t1 then t1.take (t1.length - 3)
  else t1

/-- The fence-stripping step of `callGemini`: JS
`text.trim().replace(<anchored leading tagged fence>, '')
.replace(<anchored trailing fence>, '')`. -/
def stripFences (text : String) : String := ⟨stripFencesL text.data⟩

/-- `callGemini(apiKey, images)`, abstracted over the platform JSON
parser. `resp = none` models any failure before the response text is in
hand (SDK import, network, non-2xx): the `catch` returns `null`.
Otherwise the text is fence-stripped and parsed; `parse` returning
`none` models `JSON.parse` throwing (caught, `null` returned). -/
def callGemini (parse : String → Option UnifiedResult)
    (resp : Option String) : Option UnifiedResult :=
  match resp with
  | none => none
  | some text => parse (stripFences text)

/-! ## The orchestration in `processImages` -/

/-- The primary-derived preliminary result: set only when the relay call
succeeded and produced at least one ranked candidate. -/
def preliminaryResult (pn : Option PlantnetData) : Option UnifiedResult :=
  match pn with
  | some d => if 0 < d.identifyResults.length then some (buildPlantnetResult d) else none
  | none => none

/-- The result-merging core of `processImages`: Pl@ntNet preliminary
first, then Gemini (only when a truthy key is stored) overriding
whenever it returns non-null. -/
def computeResult (parse : String → Option UnifiedResult)
    (pn : Option PlantnetData) (apiKey : Option String)
    (geminiResp : Option String) : Option UnifiedResult :=
  let preliminary := preliminaryResult pn
  match apiKey with
  | none => preliminary
  | some _ =>
      match callGemini parse geminiResp with
      | some g => some g
      | none => preliminary

/-- What the results pane shows. -/
inductive Display where
  | couldNotIdentify
  | shown (r : UnifiedResult)
  | errorMsg
deriving DecidableEq, Repr

/-- `displayResult(result)`: `null` or the empty object render the
"could not identify" message. -/
def displayResult (result : Option UnifiedResult) : Display :=
  match result with
  | none => .couldNotIdentify
  | some r => if isEmptyObj r then .couldNotIdentify else .shown r

/-- The orchestration environment of one `processImages` run: either the
two provider responses (each `none` on failure), or an exception thrown
inside the `try` block (e.g. a rejected `getKey()`), which the `catch`
turns into an error message. -/
inductive OrchEnv where
  | run (pn : Option PlantnetData) (geminiResp : Option String)
  | threw
deriving Repr

/-- What one `processImages` run did: the images submitted to the
providers and the display outcome. -/
structure ProcessTrace where
  submittedImages : List String
  display : Display
deriving DecidableEq, Repr

/-- `processImages()`: compute and display the unified result (reading
the Gemini key from the store), then in `finally` set
`imageCounter = 4` and clear the persisted session — unconditionally,
on the success, empty and thrown paths alike. -/
def processImages (parse : String → Option UnifiedResult)
    (s : ClientState) (env : OrchEnv) : ClientState × ProcessTrace :=
  let disp :=
    match env with
    | .threw => Display.errorMsg
    | .run pn g => displayResult (computeResult parse pn (truthyStr (getKey s.db)) g)
  ({ s with imageCounter := 4, db := kvsDelete s.db "session" SESSION_ID },
   ⟨s.capturedImages, disp⟩)

/-! ## Resume on load -/

/-- `loadSession()`: read `session/current_session`; on a valid record
restore `imageCounter` and `capturedImages` and, when
`imageCounter >= 3`, invoke `processImages` at once. Returns the state,
whether a session was restored, and the processing trace if invoked. -/
def loadSession (parse : String → Option UnifiedResult)
    (s : ClientState) (env : OrchEnv) : ClientState × Bool × Option ProcessTrace :=
  match kvsGet s.db "session" SESSION_ID with
  | some (.sessionV data) =>
      let s1 : ClientState :=
        { s with imageCounter := data.imageCounter,
                 capturedImages := data.capturedImages }
      if 3 ≤ s1.imageCounter then
        let r := processImages parse s1 env
        (r.1, true, some r.2)
      else (s1, true, none)
  | _ => (s, false, none)

/-- The `DOMContentLoaded` handler's session part: fresh module state
over the persisted store, `loadSession`, then `showCurrentStep` when
nothing was restored or the restored step is below 3. The final
component is the capture step shown, if any. -/
def onLoad (parse : String → Option UnifiedResult)
    (db : Kvs) (env : OrchEnv) : ClientState × Option ProcessTrace × Option Nat :=
  let s0 : ClientState := ⟨0, [], none, false, db⟩
  let r := loadSession parse s0 env
  if r.2.1 then
    if r.1.imageCounter < 3 then (r.1, r.2.2, some r.1.imageCounter)
    else (r.1, r.2.2, none)
  else (r.1, r.2.2, some r.1.imageCounter)

/-! ## The `/identify` relay (`src/server.js`) -/

/-- Characters the JS regex `.` (no `s` flag) refuses: line terminators. -/
def lineTermFree (l : List Char) : Bool :=
  l.all (fun c =>
    !(c == '\n' || c == '\r' || c == Char.ofNat 0x2028 || c == Char.ofNat 0x2029))

/-- One valid split of the text after `data:` into
`<mime> ";base64," <payload>` at mime length `i`, per the
case-insensitive pattern `^data:(.+);base64,(.*)$`: the mime part is
non-empty, both captures are line-terminator free, and the literal
separator matches ignoring case. -/
def validSplit (rest : List Char) (i : Nat) : Bool :=
  decide (1 ≤ i) && lineTermFree (rest.take i)
    && ((rest.drop i).take 8).map Char.toLower == ";base64,".data
    && lineTermFree (rest.drop (i + 8))

/-- The split the greedy `(.+)` selects: the valid split with the
longest mime part, if any. -/
def dataUriSplit (rest : List Char) : Option Nat :=
  ((List.range (rest.length + 1)).reverse).find? (validSplit rest)

/-- `decodeDataUri(dataUri)` from server.js: match
`^data:(.+);base64,(.*)$` case-insensitively, returning the mime type
and base64 payload captures, or `none` where the source throws
`Invalid data URI`. -/
def decodeDataUri (s : String) : Option (String × String) :=
  let l := s.data
  if (l.take 5).map Char.toLower == "data:".data then
    match dataUriSplit (l.drop 5) with
    | some i => some (⟨(l.drop 5).take i⟩, ⟨(l.drop 5).drop (i + 8)⟩)
    | none => none
  else none

/-- `mimeType.split('/')[1]`: the segment after the first `/`, when one
exists. -/
def secondSegment (l : List Char) : Option (List Char) :=
  match l.dropWhile (fun c => !(c == '/')) with
  | [] => none
  | _ :: rest => some (rest.takeWhile (fun c => !(c == '/')))

/-- `mimeType.split('/')[1] || 'jpg'`. -/
def fileExtOf (mime : String) : String :=
  match secondSegment mime.data with
  | some e => if e.isEmpty then "jpg" else ⟨e⟩
  | none => "jpg"

/-- One `images`/`organs` field pair appended to the outbound form. -/
structure FormEntry where
  filename : String
  mimeType : String
  organ : String
deriving DecidableEq, Repr

/-- The body of `buildFormData`'s `forEach`, with the running index:
decode each data URI (a failure propagates, as the JS throw does) and
pair it with its organ hint, defaulting to `auto`. -/
def buildFormEntries (images organs : List String) (idx : Nat) :
    Option (List FormEntry) :=
  match images with
  | [] => some []
  | u :: rest =>
      match decodeDataUri u with
      | none => none
      | some (mime, _payload) =>
          let organ :=
            match organs.get? idx with
            | some o => if o.isEmpty then "auto" else o
            | none => "auto"
          match buildFormEntries rest organs (idx + 1) with
          | none => none
          | some es =>
              some (⟨"image" ++ toString idx ++ "." ++ fileExtOf mime, mime, organ⟩ :: es)

/-- `buildFormData(images, organs)` from server.js. -/
def buildFormData (images organs : List String) : Option (List FormEntry) :=
  buildFormEntries images organs 0

/-- The relay's reply to a parsed POST /identify body: an HTTP 400 with
a JSON `error` body, or an HTTP 200 carrying the provider responses
(built after the outbound calls, whose content is irrelevant here). -/
inductive RelayResponse where
  | clientError (msg : String)
  | ok (identifyForm : List FormEntry) (lang : Option String) (calledDiseases : Bool)
deriving DecidableEq, Repr

/-- A POST /identify body that parsed as JSON, projected onto the fields
the handler reads. `images`/`organs` are `none` when the field is absent
or not an array (the source's `Array.isArray` checks fall back to `[]`). -/
structure IdentifyPayload where
  images : Option (List String)
  organs : Option (List String)
  detectDisease : Bool
  lang : Option String
deriving DecidableEq, Repr

/-- The relay's reply together with how many outbound provider calls
(`fetch` to the species and disease endpoints) the handler made. -/
structure HandleResult where
  response : RelayResponse
  outboundCalls : Nat
deriving DecidableEq, Repr

/-- `handleIdentify`'s `end` handler on a body that parsed as JSON: an
empty image list or an undecodable data URI throws before any `fetch`,
answered with 400 and a JSON error; otherwise the identify call is made,
plus the diseases call when `detectDisease` is truthy. -/
def handleIdentify (p : IdentifyPayload) : HandleResult :=
  let images := p.images.getD []
  if images.length = 0 then ⟨.clientError "No images provided", 0⟩
  else
    let organs := p.organs.getD []
    match buildFormData images organs with
    | none => ⟨.clientError "Invalid data URI", 0⟩
    | some form =>
        ⟨.ok form p.lang p.detectDisease, 1 + (if p.detectDisease then 1 else 0)⟩

/-- Whether a relay reply is the HTTP 400 JSON-error reply. -/
def isClientError (r : RelayResponse) : Bool :=
  match r with
  | .clientError _ => true
  | .ok _ _ _ => false

/-! ## Store lemmas -/

theorem find?_filter_neg {α : Type} (l : List α) (p : α → Bool) :
    (l.filter (fun x => !(p x))).find? p = none := by
  induction l with
  | nil => rfl
  | cons a t ih =>
      cases h : p a with
      | true => simp [List.filter_cons, h, ih]
      | false => simp [List.filter_cons, h, List.find?_cons, ih]

theorem kvsGet_put (db : Kvs) (ns key : String) (v : KvsValue) :
    kvsGet (kvsPut db ns key v) ns key = some v := by
  simp [kvsGet, kvsPut, List.find?_cons]

theorem kvsGet_delete (db : Kvs) (ns key : String) :
    kvsGet (kvsDelete db ns key) ns key = none := by
  simp only [kvsGet, kvsDelete, find?_filter_neg, Option.map_none']

/-! ## Claim theorems -/

/-- C2: for every sequence of three `captureRaw → confirm` cycles from a
fresh session (step 0, no images), the state after the third confirm has
`imageCounter = 3` and exactly the three captured images in order, and
`processImages` is invoked exactly once — on the third confirm only. -/
theorem three_cycles_complete (db : Kvs) (i1 i2 i3 : String) :
    let s0 : ClientState := ⟨0, [], none, false, db⟩
    let r1 := cycle s0 i1
    let r2 := cycle r1.1 i2
    let r3 := cycle r2.1 i3
    r3.1.imageCounter = 3 ∧ r3.1.capturedImages = [i1, i2, i3]
      ∧ r1.2 = false ∧ r2.2 = false ∧ r3.2 = true :=
  ⟨rfl, rfl, rfl, rfl, rfl⟩

/-- C3: every `confirm()` from a reviewing state (a draft is present)
writes `\x7bstepIndex, images\x7d` — the draft appended, the step
incremented — under `session/current_session`, and in the state in which
the machine continues, reading that entry back yields exactly the value
written, which equals the in-memory `\x7bstepIndex, images\x7d`. -/
theorem confirm_persist_roundtrip (s : ClientState) (d : String)
    (h : s.currentDraft = some d) :
    kvsGet (confirmClick s).1.db "session" SESSION_ID
        = some (.sessionV ⟨s.imageCounter + 1, s.capturedImages ++ [d]⟩)
    ∧ kvsGet (confirmClick s).1.db "session" SESSION_ID
        = some (.sessionV ⟨(confirmClick s).1.imageCounter,
                           (confirmClick s).1.capturedImages⟩) := by
  unfold confirmClick
  rw [h]
  simp only [saveSession]
  constructor <;> (split <;> simp [kvsGet_put])

/-- C3 witness: the round-trip at a concrete reviewing state. -/
theorem confirm_persist_roundtrip_witness :
    (⟨0, [], some "img", false, []⟩ : ClientState).currentDraft = some "img"
    ∧ (kvsGet (confirmClick ⟨0, [], some "img", false, []⟩).1.db "session" SESSION_ID
        = some (.sessionV ⟨0 + 1, [] ++ ["img"]⟩)
      ∧ kvsGet (confirmClick ⟨0, [], some "img", false, []⟩).1.db "session" SESSION_ID
        = some (.sessionV ⟨(confirmClick ⟨0, [], some "img", false, []⟩).1.imageCounter,
                           (confirmClick ⟨0, [], some "img", false, []⟩).1.capturedImages⟩)) :=
  ⟨rfl, confirm_persist_roundtrip ⟨0, [], some "img", false, []⟩ "img" rfl⟩

/-- C4: whatever the orchestration did — produced a result, produced
none, or threw — `processImages` leaves the machine Completed
(`imageCounter = 4`, the sentinel) with the persisted session entry
absent; the `finally` block runs on every path. -/
theorem processImages_completed_clears (parse : String → Option UnifiedResult)
    (s : ClientState) (env : OrchEnv) :
    (processImages parse s env).1.imageCounter = 4
    ∧ kvsGet (processImages parse s env).1.db "session" SESSION_ID = none := by
  exact ⟨rfl, kvsGet_delete s.db "session" SESSION_ID⟩

/-- C9 counterexample: the busy flag does not reject triggering the
image picker a second time before the previous pick has resolved. From
the initial state a scan click opens the picker; no change event has
fired, yet a second scan click opens the picker again instead of being
rejected (`isProcessingFile` only becomes true once a change event
delivers a file). -/
theorem double_picker_not_rejected :
    (scanClick ⟨0, [], none, false, []⟩).2 = ScanAction.openPicker
    ∧ (scanClick (scanClick ⟨0, [], none, false, []⟩).1).2 = ScanAction.openPicker :=
  ⟨rfl, rfl⟩

/-- C9 amended: while a picked file is being processed
(`isProcessingFile` is set, below step 3), the busy flag rejects every
new capture trigger — a scan click is blocked and a further change event
is ignored. The flag does not guard the window between opening the
picker and the change event (see `double_picker_not_rejected`). -/
theorem busy_guard_blocks_processing (s : ClientState)
    (h1 : s.isProcessingFile = true) (h2 : s.imageCounter < 3) :
    scanClick s = (s, ScanAction.blocked)
    ∧ ∀ ev : CaptureEvent, fileChange s ev = s := by
  constructor
  · simp [scanClick, h1, Nat.not_le.mpr h2]
  · intro ev
    simp [fileChange, h1]

/-- C9 amended witness: the guard at a concrete busy state. -/
theorem busy_guard_blocks_processing_witness :
    (⟨1, ["a"], none, true, []⟩ : ClientState).isProcessingFile = true
    ∧ (⟨1, ["a"], none, true, []⟩ : ClientState).imageCounter < 3
    ∧ (scanClick ⟨1, ["a"], none, true, []⟩ = (⟨1, ["a"], none, true, []⟩, ScanAction.blocked)
      ∧ ∀ ev : CaptureEvent, fileChange ⟨1, ["a"], none, true, []⟩ ev = ⟨1, ["a"], none, true, []⟩) :=
  ⟨rfl, by decide, busy_guard_blocks_processing ⟨1, ["a"], none, true, []⟩ rfl (by decide)⟩

/-- C8: on a capture whose image data cannot be decoded, `compressImage`
installs no error handler, so its promise never settles: the machine
does stay at the same step with images unchanged and nothing thrown, but
`isProcessingFile` is left permanently set, after which every scan click
is blocked and every change event is ignored — the user cannot retry.
This contradicts the specified recoverable capture error. -/
theorem decode_failure_stuck (s : ClientState)
    (h1 : s.isProcessingFile = false) (h2 : s.imageCounter < 3) :
    (fileChange s (.file .hang)).imageCounter = s.imageCounter
    ∧ (fileChange s (.file .hang)).capturedImages = s.capturedImages
    ∧ (fileChange s (.file .hang)).currentDraft = s.currentDraft
    ∧ (fileChange s (.file .hang)).isProcessingFile = true
    ∧ (scanClick (fileChange s (.file .hang))).2 = ScanAction.blocked
    ∧ ∀ ev : CaptureEvent,
        fileChange (fileChange s (.file .hang)) ev = fileChange s (.file .hang) := by
  have hs : fileChange s (.file .hang) = { s with isProcessingFile := true } := by
    simp [fileChange, h1]
  rw [hs]
  refine ⟨rfl, rfl, rfl, rfl, ?_, ?_⟩
  · simp [scanClick, Nat.not_le.mpr h2]
  · intro ev
    simp [fileChange]

/-- C8 witness: the stuck state at a concrete capture state. -/
theorem decode_failure_stuck_witness :
    (⟨0, [], none, false, []⟩ : ClientState).isProcessingFile = false
    ∧ (⟨0, [], none, false, []⟩ : ClientState).imageCounter < 3
    ∧ ((fileChange ⟨0, [], none, false, []⟩ (.file .hang)).imageCounter = 0
      ∧ (fileChange ⟨0, [], none, false, []⟩ (.file .hang)).capturedImages = ([] : List String)
      ∧ (fileChange ⟨0, [], none, false, []⟩ (.file .hang)).currentDraft = none
      ∧ (fileChange ⟨0, [], none, false, []⟩ (.file .hang)).isProcessingFile = true
      ∧ (scanClick (fileChange ⟨0, [], none, false, []⟩ (.file .hang))).2 = ScanAction.blocked
      ∧ ∀ ev : CaptureEvent,
          fileChange (fileChange ⟨0, [], none, false, []⟩ (.file .hang)) ev
            = fileChange ⟨0, [], none, false, []⟩ (.file .hang)) :=
  ⟨rfl, by decide, decode_failure_stuck ⟨0, [], none, false, []⟩ rfl (by decide)⟩

/-- A JSON parser that accepts nothing; a convenient closed
instantiation of the abstract parse parameter. -/
def noParse : String → Option UnifiedResult := fun _ => none

/-- C1: on process start, (i) with no persisted session the controller
enters AwaitingCapture(0) — fresh counters, step 0 shown, no processing;
(ii) with a persisted session of step `n < 3` it enters
AwaitingCapture(n) with the images restored and no draft restored;
(iii) with step `n >= 3` it immediately re-invokes processing, and the
images submitted are exactly the restored ones — the completed triple
needs no re-capture. -/
theorem onLoad_resume (parse : String → Option UnifiedResult)
    (env : OrchEnv) (db : Kvs) (n : Nat) (imgs : List String) :
    (kvsGet db "session" SESSION_ID = none →
        onLoad parse db env = (⟨0, [], none, false, db⟩, none, some 0))
    ∧ (kvsGet db "session" SESSION_ID = some (.sessionV ⟨n, imgs⟩) → n < 3 →
        onLoad parse db env = (⟨n, imgs, none, false, db⟩, none, some n))
    ∧ (kvsGet db "session" SESSION_ID = some (.sessionV ⟨n, imgs⟩) → 3 ≤ n →
        ∃ tr : ProcessTrace,
          onLoad parse db env
              = ((processImages parse ⟨n, imgs, none, false, db⟩ env).1, some tr, none)
            ∧ tr.submittedImages = imgs
            ∧ (onLoad parse db env).1.imageCounter = 4) := by
  refine ⟨?_, ?_, ?_⟩
  · intro h
    simp [onLoad, loadSession, h]
  · intro h hlt
    simp [onLoad, loadSession, h, Nat.not_le.mpr hlt, hlt]
  · intro h hge
    refine ⟨(processImages parse ⟨n, imgs, none, false, db⟩ env).2, ?_, rfl, ?_⟩
    · simp [onLoad, loadSession, h, hge, processImages]
    · simp [onLoad, loadSession, h, hge, processImages]

/-- C1 witness: the three resume cases at concrete stores. -/
theorem onLoad_resume_witness :
    (kvsGet [] "session" SESSION_ID = none
      ∧ onLoad noParse [] (.run none none) = (⟨0, [], none, false, []⟩, none, some 0))
    ∧ (kvsGet [("session", SESSION_ID, .sessionV ⟨1, ["a"]⟩)] "session" SESSION_ID
          = some (.sessionV ⟨1, ["a"]⟩)
      ∧ (1 : Nat) < 3
      ∧ onLoad noParse [("session", SESSION_ID, .sessionV ⟨1, ["a"]⟩)] (.run none none)
          = (⟨1, ["a"], none, false, [("session", SESSION_ID, .sessionV ⟨1, ["a"]⟩)]⟩,
             none, some 1))
    ∧ (kvsGet [("session", SESSION_ID, .sessionV ⟨3, ["a", "b", "c"]⟩)] "session" SESSION_ID
          = some (.sessionV ⟨3, ["a", "b", "c"]⟩)
      ∧ (3 : Nat) ≤ 3
      ∧ ∃ tr : ProcessTrace,
          onLoad noParse [("session", SESSION_ID, .sessionV ⟨3, ["a", "b", "c"]⟩)] (.run none none)
              = ((processImages noParse
                    ⟨3, ["a", "b", "c"], none, false,
                      [("session", SESSION_ID, .sessionV ⟨3, ["a", "b", "c"]⟩)]⟩
                    (.run none none)).1, some tr, none)
            ∧ tr.submittedImages = ["a", "b", "c"]
            ∧ (onLoad noParse [("session", SESSION_ID, .sessionV ⟨3, ["a", "b", "c"]⟩)]
                (.run none none)).1.imageCounter = 4) :=
  ⟨⟨by decide, (onLoad_resume noParse (.run none none) [] 0 []).1 (by decide)⟩,
   ⟨by decide, by decide,
    (onLoad_resume noParse (.run none none) [("session", SESSION_ID, .sessionV ⟨1, ["a"]⟩)]
        1 ["a"]).2.1 (by decide) (by decide)⟩,
   ⟨by decide, by decide,
    (onLoad_resume noParse (.run none none)
        [("session", SESSION_ID, .sessionV ⟨3, ["a", "b", "c"]⟩)]
        3 ["a", "b", "c"]).2.2 (by decide) (by decide)⟩⟩

theorem dropWhile_head_false {p : Char → Bool} {a : Char} {l : List Char}
    (h : p a = false) : List.dropWhile p (a :: l) = a :: l := by
  simp [List.dropWhile_cons, h]

theorem trimL_graft (body : List Char) :
    trimL (fenceJsonNl ++ body ++ nlFence) = fenceJsonNl ++ body ++ nlFence := by
  have e1 : fenceJsonNl ++ body ++ nlFence
      = '`' :: (['`', '`', 'j', 's', 'o', 'n', '\n'] ++ body ++ nlFence) := by
    simp [fenceJsonNl]
  have e2 : fenceJsonNl ++ body ++ nlFence
      = (fenceJsonNl ++ body ++ ['\n', '`', '`']) ++ ['`'] := by
    simp [nlFence]
  have h1 : List.dropWhile Char.isWhitespace (fenceJsonNl ++ body ++ nlFence)
      = fenceJsonNl ++ body ++ nlFence := by
    rw [e1, dropWhile_head_false (by decide)]
  have h2 : List.dropWhile Char.isWhitespace (fenceJsonNl ++ body ++ nlFence).reverse
      = (fenceJsonNl ++ body ++ nlFence).reverse := by
    rw [e2, List.reverse_append]
    simp only [List.reverse_cons, List.reverse_nil, List.nil_append, List.singleton_append]
    rw [dropWhile_head_false (by decide)]
  unfold trimL
  rw [h1, h2, List.reverse_reverse]

theorem stripFencesL_graft (body : List Char) :
    stripFencesL (fenceJsonNl ++ body ++ nlFence) = body := by
  have hpre : fenceJsonNl.isPrefixOf (fenceJsonNl ++ body ++ nlFence) = true := by
    rw [List.isPrefixOf_iff_prefix, List.append_assoc]
    exact List.prefix_append _ _
  have hdrop : (fenceJsonNl ++ body ++ nlFence).drop 8 = body ++ nlFence := by
    have hl : fenceJsonNl.length = 8 := by decide
    rw [List.append_assoc, ← hl, List.drop_left]
  have hsuf : nlFence.isSuffixOf (body ++ nlFence) = true := by
    rw [List.isSuffixOf_iff_suffix]
    exact List.suffix_append _ _
  have htake : (body ++ nlFence).take ((body ++ nlFence).length - 4) = body := by
    have hlen : (body ++ nlFence).length - 4 = body.length := by
      simp [List.length_append, nlFence]
    rw [hlen, List.take_left]
  unfold stripFencesL
  rw [trimL_graft]
  simp only [hpre, if_true, hdrop, hsuf, htake]

theorem stripFences_graft (body : String) :
    stripFences ("```json\n" ++ body ++ "\n```") = body := by
  have hdata : ("```json\n" ++ body ++ "\n```").data
      = fenceJsonNl ++ body.data ++ nlFence := by
    rw [String.data_append, String.data_append]
    have h1 : "```json\n".data = fenceJsonNl := by decide
    have h2 : "\n```".data = nlFence := by decide
    rw [h1, h2]
  show (⟨stripFencesL ("```json\n" ++ body ++ "\n```").data⟩ : String) = body
  rw [hdata, stripFencesL_graft]

/-- C5 counterexample: the orchestrator does not strip an untagged
leading fence. For the fenced response text whose body is the valid JSON
object text, only the trailing fence is removed, the leading fence
survives, and with a parser that accepts exactly the bare body (as
`JSON.parse` would) the unified result falls back to the preliminary
(here absent) instead of the parsed object. -/
theorem stripFences_untagged_not_stripped :
    stripFences "```\n\x7b\"a\":1\x7d\n```" = "```\n\x7b\"a\":1\x7d"
    ∧ stripFences "```\n\x7b\"a\":1\x7d\n```" ≠ "\x7b\"a\":1\x7d"
    ∧ computeResult
        (fun s => if s = "\x7b\"a\":1\x7d"
          then some ⟨some ⟨"Ficus", "", none, 1⟩, none, none, none, none⟩ else none)
        none (some "key") (some "```\n\x7b\"a\":1\x7d\n```") = none :=
  ⟨by decide, by decide, by decide⟩

/-- C5 amended: the orchestrator strips a leading fence marker only when
tagged exactly `json` (with or without its newline) and a trailing fence
marker; whenever the cleaned text parses, the parsed object
unconditionally overrides the preliminary result, and a parse failure
falls back to the preliminary result (or nothing) rather than an
exception; a response wrapped in a `json`-tagged fence is unwrapped
exactly. -/
theorem gemini_strip_override_fallback
    (parse : String → Option UnifiedResult) (pn : Option PlantnetData)
    (k t body : String) :
    (∀ u : UnifiedResult, parse (stripFences t) = some u →
        computeResult parse pn (some k) (some t) = some u)
    ∧ (parse (stripFences t) = none →
        computeResult parse pn (some k) (some t) = preliminaryResult pn)
    ∧ stripFences ("```json\n" ++ body ++ "\n```") = body := by
  refine ⟨?_, ?_, stripFences_graft body⟩
  · intro u hu
    simp [computeResult, callGemini, hu]
  · intro hnone
    simp [computeResult, callGemini, hnone]

/-- A sample parsed result for witnesses. -/
def sampleResult : UnifiedResult :=
  ⟨some ⟨"Ficus religiosa", "", none, 1⟩, none, none, none, none⟩

/-- A parser accepting exactly the empty JSON object text. -/
def sampleParse : String → Option UnifiedResult :=
  fun s => if s = "\x7b\x7d" then some sampleResult else none

/-- C5 amended witness: override, fallback and exact unwrapping at
concrete fenced texts. -/
theorem gemini_strip_override_fallback_witness :
    (sampleParse (stripFences "```json\n\x7b\x7d\n```") = some sampleResult
      ∧ computeResult sampleParse none (some "key") (some "```json\n\x7b\x7d\n```")
          = some sampleResult)
    ∧ (noParse (stripFences "garbage") = none
      ∧ computeResult noParse none (some "key") (some "garbage")
          = preliminaryResult none)
    ∧ stripFences ("```json\n" ++ "\x7b\x7d" ++ "\n```") = "\x7b\x7d" :=
  ⟨⟨by decide,
    (gemini_strip_override_fallback sampleParse none "key" "```json\n\x7b\x7d\n```" "").1
      sampleResult (by decide)⟩,
   ⟨rfl,
    (gemini_strip_override_fallback noParse none "key" "garbage" "").2.1 rfl⟩,
   (gemini_strip_override_fallback noParse none "key" "" "\x7b\x7d").2.2⟩

/-- C6 counterexample: the remaining ranked candidates are not mapped to
alternatives. With two ranked candidates and no stored credential the
unified result is the preliminary result, and it carries no
`alternatives` key at all (the second candidate is discarded). -/
theorem no_alternatives_built :
    computeResult noParse
        (some ⟨[⟨some ⟨some "Ficus", ["Fig"]⟩, 0.9⟩, ⟨some ⟨some "Quercus", []⟩, 0.5⟩], []⟩)
        none none
      = some (buildPlantnetResult
          ⟨[⟨some ⟨some "Ficus", ["Fig"]⟩, 0.9⟩, ⟨some ⟨some "Quercus", []⟩, 0.5⟩], []⟩)
    ∧ (buildPlantnetResult
          ⟨[⟨some ⟨some "Ficus", ["Fig"]⟩, 0.9⟩, ⟨some ⟨some "Quercus", []⟩, 0.5⟩], []⟩).alternatives
      = none :=
  ⟨rfl, rfl⟩

/-- C6 amended: with at least one ranked species candidate, the
preliminary result's `best_match` carries the top candidate's scientific
name (empty when missing), its first common name (empty when none) and
confidence equal to the provider score; the remaining candidates are
discarded (no alternatives are built); disease candidates map to
`health_assessment.issues` entries; and with no stored credential the
secondary step is skipped, so this preliminary result is the unified
result, with no care guide present. -/
theorem plantnet_preliminary_shape
    (parse : String → Option UnifiedResult) (g : Option String)
    (d : PlantnetData) (top : PnCandidate) (rest : List PnCandidate) (db : Kvs)
    (hres : d.identifyResults = top :: rest)
    (hkey : truthyStr (getKey db) = none) :
    computeResult parse (some d) (truthyStr (getKey db)) g
        = some (buildPlantnetResult d)
    ∧ (buildPlantnetResult d).best_match = some
        ⟨jsOrStr (top.species.bind PnSpecies.scientificNameWithoutAuthor) "",
         jsOrStr ((top.species.map PnSpecies.commonNames).getD []).head? "",
         none, top.score⟩
    ∧ (buildPlantnetResult d).care_guide = none
    ∧ (buildPlantnetResult d).alternatives = none
    ∧ (buildPlantnetResult d).health_assessment
        = (if 0 < d.diseasesResults.length then
            some ⟨none, none, some (d.diseasesResults.map (fun r =>
              ⟨jsOrStr r.label (jsOrStr r.name ""), r.score, none⟩))⟩
          else none) := by
  rw [hkey]
  refine ⟨?_, ?_, ?_, ?_, ?_⟩
  · simp [computeResult, preliminaryResult, hres]
  · simp only [buildPlantnetResult, hres, List.head?_cons]
    split <;> rfl
  · simp only [buildPlantnetResult, hres, List.head?_cons]
    split <;> rfl
  · simp only [buildPlantnetResult, hres, List.head?_cons]
    split <;> rfl
  · simp only [buildPlantnetResult, hres, List.head?_cons]
    split <;> simp_all [emptyUnified]

/-- C6 amended witness: the spec's orchestrator test — a single
candidate with score 0.9 and no credential gives
`best_match.confidence = 0.9` and no care guide. -/
theorem plantnet_preliminary_shape_witness :
    (⟨[⟨some ⟨some "Ficus religiosa", ["Bodhi"]⟩, 0.9⟩], []⟩ : PlantnetData).identifyResults
        = ⟨some ⟨some "Ficus religiosa", ["Bodhi"]⟩, 0.9⟩ :: []
    ∧ truthyStr (getKey []) = none
    ∧ (computeResult noParse
          (some ⟨[⟨some ⟨some "Ficus religiosa", ["Bodhi"]⟩, 0.9⟩], []⟩)
          (truthyStr (getKey [])) none
        = some (buildPlantnetResult ⟨[⟨some ⟨some "Ficus religiosa", ["Bodhi"]⟩, 0.9⟩], []⟩)
      ∧ (buildPlantnetResult
            ⟨[⟨some ⟨some "Ficus religiosa", ["Bodhi"]⟩, 0.9⟩], []⟩).best_match
          = some ⟨"Ficus religiosa", "Bodhi", none, 0.9⟩
      ∧ (buildPlantnetResult
            ⟨[⟨some ⟨some "Ficus religiosa", ["Bodhi"]⟩, 0.9⟩], []⟩).care_guide = none
      ∧ (buildPlantnetResult
            ⟨[⟨some ⟨some "Ficus religiosa", ["Bodhi"]⟩, 0.9⟩], []⟩).alternatives = none
      ∧ (buildPlantnetResult
            ⟨[⟨some ⟨some "Ficus religiosa", ["Bodhi"]⟩, 0.9⟩], []⟩).health_assessment
          = none) := by
  have h := plantnet_preliminary_shape noParse none
    ⟨[⟨some ⟨some "Ficus religiosa", ["Bodhi"]⟩, 0.9⟩], []⟩
    ⟨some ⟨some "Ficus religiosa", ["Bodhi"]⟩, 0.9⟩ [] [] rfl rfl
  refine ⟨rfl, rfl, h.1, ?_, h.2.2.1, h.2.2.2.1, ?_⟩
  · rw [h.2.1]
    rfl
  · rw [h.2.2.2.2]
    rfl

/-- C7 counterexample: when both providers fail, the unified result is
`null` (absent), not the empty object. -/
theorem both_fail_not_empty_object :
    computeResult noParse none none none = none
    ∧ computeResult noParse none none none ≠ some emptyUnified :=
  ⟨rfl, by decide⟩

/-- C7 amended: when the primary produced no usable data and the
secondary call fails (or is skipped), the unified result is `null` —
absent, not the empty object — and `displayResult` renders this, and
equally the empty object, as the distinct could-not-identify message
rather than raising an exception. -/
theorem both_fail_null_display
    (parse : String → Option UnifiedResult) (pn : Option PlantnetData)
    (key : Option String) (g : Option String)
    (h1 : preliminaryResult pn = none) (h2 : callGemini parse g = none) :
    computeResult parse pn key g = none
    ∧ displayResult (computeResult parse pn key g) = .couldNotIdentify
    ∧ displayResult (some emptyUnified) = .couldNotIdentify := by
  have hc : computeResult parse pn key g = none := by
    cases key with
    | none => simpa [computeResult] using h1
    | some k => simp [computeResult, h2, h1]
  refine ⟨hc, ?_, rfl⟩
  rw [hc]
  rfl

/-- C7 amended witness: both-fail at a concrete environment. -/
theorem both_fail_null_display_witness :
    preliminaryResult (some ⟨[], []⟩) = none
    ∧ callGemini noParse (some "oops") = none
    ∧ (computeResult noParse (some ⟨[], []⟩) (some "key") (some "oops") = none
      ∧ displayResult (computeResult noParse (some ⟨[], []⟩) (some "key") (some "oops"))
          = .couldNotIdentify
      ∧ displayResult (some emptyUnified) = .couldNotIdentify) :=
  ⟨rfl, rfl, both_fail_null_display noParse (some ⟨[], []⟩) (some "key") (some "oops") rfl rfl⟩

theorem buildFormEntries_none_of_bad (organs : List String) (u : String)
    (hdec : decodeDataUri u = none) :
    ∀ (images : List String) (idx : Nat), u ∈ images →
      buildFormEntries images organs idx = none := by
  intro images
  induction images with
  | nil => intro idx hu; cases hu
  | cons a rest ih =>
      intro idx hu
      rcases List.mem_cons.mp hu with h | h
      · subst h
        simp [buildFormEntries, hdec]
      · cases hda : decodeDataUri a with
        | none => simp [buildFormEntries, hda]
        | some pr =>
            obtain ⟨mime, payload⟩ := pr
            simp [buildFormEntries, hda, ih (idx + 1) h]

/-- C10: a POST /identify body that parsed as JSON but carries no
non-empty images array, or lists an image string that is not a valid
`data:<mime>;base64,<payload>` URI, is answered with the HTTP 400 JSON
error reply, and no outbound call is made to either provider endpoint
(the throw happens before any fetch). -/
theorem identify_rejects_bad_images (p : IdentifyPayload)
    (h : p.images.getD [] = []
      ∨ ∃ u ∈ p.images.getD [], decodeDataUri u = none) :
    isClientError (handleIdentify p).response = true
    ∧ (handleIdentify p).outboundCalls = 0 := by
  rcases h with h0 | ⟨u, hu, hdec⟩
  · simp [handleIdentify, h0, isClientError]
  · have hne : (p.images.getD []).length ≠ 0 := by
      intro hc
      rw [List.length_eq_zero] at hc
      rw [hc] at hu
      exact absurd hu (List.not_mem_nil u)
    have hform : buildFormData (p.images.getD []) (p.organs.getD []) = none :=
      buildFormEntries_none_of_bad (p.organs.getD []) u hdec (p.images.getD []) 0 hu
    simp [handleIdentify, hne, buildFormData] at hform ⊢
    simp [hform, isClientError]

/-- C10 witness: a single malformed image string is rejected with no
outbound call. -/
theorem identify_rejects_bad_images_witness :
    ((⟨some ["xyz"], none, true, some "vi"⟩ : IdentifyPayload).images.getD [] = []
      ∨ ∃ u ∈ (⟨some ["xyz"], none, true, some "vi"⟩ : IdentifyPayload).images.getD [],
          decodeDataUri u = none)
    ∧ (isClientError (handleIdentify ⟨some ["xyz"], none, true, some "vi"⟩).response = true
      ∧ (handleIdentify ⟨some ["xyz"], none, true, some "vi"⟩).outboundCalls = 0) :=
  ⟨by decide, identify_rejects_bad_images ⟨some ["xyz"], none, true, some "vi"⟩ (by decide)⟩

end PlantScanner
